import Mathlib

/-!
Verification of the lead-scoring agent (shuja609/lead-scoring-agent).

Shallow embedding of the parts of the code the claims depend on:
`app/database.py` (registry and lead-store operations over SQLite tables),
`app/retraining.py` (`RetrainingManager`), `app/model.py` (`retrain_model`
and `ModelTrainer.save_to_database`), `app/workflow.py` (the LangGraph
scoring pipeline and the model cache) and `app/main.py` (endpoint glue).

Tables are lists of rows; every database call in the source opens its own
connection via the `get_connection` context manager, so each call is one
SQLite transaction.  A sequence of calls is therefore embedded as a list of
state transformers, whose intermediate states are exactly the commit points
a concurrent reader (a separate connection) can observe.

AUC scores and probabilities are embedded as rationals; the classifier
itself (scikit-learn fit/predict) is an external capability and enters the
model as an oracle argument (the probability it returns for the lead at
hand, or the AUC of a freshly trained model, or a training exception).
-/

/-! ## Registry: the `models` table (`app/database.py`) -/

/-- One row of the `models` table.  The pickled model blob is opaque to all
claims; the metadata columns that matter are `version`, `auc_score` and
`active`. -/
structure ModelRow where
  version : String
  auc_score : ℚ
  active : Bool
  deriving DecidableEq, Repr

/-- The `models` table. -/
abbrev Registry := List ModelRow

/-- Embeds `Database.deactivate_all_models` (database.py:242-246):
`UPDATE models SET active = 0`, one transaction. -/
def deactivate_all_models (reg : Registry) : Registry :=
  reg.map (fun r => { r with active := false })

/-- Embeds `Database.save_model` (database.py:190-211): `INSERT INTO models ...`
with the `active` column taken from the metrics dict, one transaction. -/
def save_model (version : String) (auc : ℚ) (activeFlag : Bool)
    (reg : Registry) : Registry :=
  reg ++ [⟨version, auc, activeFlag⟩]

/-- Embeds `Database.set_active_model` (database.py:230-240): inside a single
transaction, `UPDATE models SET active = 0` followed by
`UPDATE models SET active = 1 WHERE version = ?`. -/
def set_active_model (version : String) (reg : Registry) : Registry :=
  (reg.map (fun r => { r with active := false })).map
    (fun r => if r.version = version then { r with active := true } else r)

/-- Embeds `Database.get_active_model` (database.py:213-228):
`SELECT ... FROM models WHERE active = 1 ... LIMIT 1`.  The `ORDER BY
training_timestamp` tiebreak is abstracted to first-in-table order; the
claims only distinguish `none` from `some`. -/
def get_active_model (reg : Registry) : Option ModelRow :=
  reg.find? (·.active)

/-- Number of rows with `active = 1`. -/
def countActive (reg : Registry) : Nat :=
  (reg.filter (·.active)).length

/-! ## Version generation (`RetrainingManager._generate_version`,
retraining.py:168-185) -/

/-- Python `str.split('.')` with a one-character separator, on the
character list: cut at every `'.'`, keeping empty pieces. -/
def splitDotAux : List Char → List Char → List (List Char)
  | [], acc => [acc.reverse]
  | c :: cs, acc =>
    if c = '.' then acc.reverse :: splitDotAux cs []
    else splitDotAux cs (c :: acc)

/-- Python `current_version.split('.')` (retraining.py:179). -/
def pySplitDot (s : String) : List String :=
  (splitDotAux s.data []).map (fun l => ⟨l⟩)

/-- Decimal value of one digit character, `none` for a non-digit. -/
def charVal? (c : Char) : Option Nat :=
  if c.toNat ≥ 48 ∧ c.toNat ≤ 57 then some (c.toNat - 48) else none

/-- Accumulating decimal parse; `none` both for an empty digit string and
on the first non-digit. -/
def digitsVal? : List Char → Option Nat → Option Nat
  | [], acc => acc
  | c :: cs, acc =>
    match charVal? c, acc with
    | some d, some a => digitsVal? cs (some (10 * a + d))
    | some d, none => digitsVal? cs (some d)
    | none, _ => none

/-- Python `int(s)` restricted to the plain decimal strings that occur as
version components: an optional leading `-` followed by one or more
digits (whitespace, `+` and `_` forms do not arise here). -/
def pyInt? (s : String) : Option Int :=
  match s.data with
  | [] => none
  | c :: cs =>
    if c = '-' then (digitsVal? cs none).map (fun n => -(n : Int))
    else (digitsVal? (c :: cs) none).map (fun n => (n : Int))

/-- Decimal digits of a positive natural; the first argument is recursion
fuel (`n` itself suffices since `n / 10` shrinks at least as fast). -/
def natDigitsAux : Nat → Nat → List Char
  | 0, _ => []
  | fuel + 1, n =>
    if n = 0 then []
    else natDigitsAux fuel (n / 10) ++ [Char.ofNat (48 + n % 10)]

/-- Python `str(n)` for a natural number. -/
def natToString (n : Nat) : String :=
  if n = 0 then "0" else ⟨natDigitsAux n n⟩

/-- Python `str(i)` for an integer (an f-string interpolates with `str`). -/
def intToStr (i : Int) : String :=
  if i < 0 then "-" ++ natToString i.natAbs else natToString i.toNat

/-- Embeds `RetrainingManager._generate_version` (retraining.py:168-185):
`major, minor = current_version.split('.')` succeeds only when the split
yields exactly two parts; then `int(minor)` must parse; on success the new
version is `major.(minor+1)`, on any exception the fallback is
`1.<UTC timestamp>`.  The wall-clock timestamp is the `ts` argument. -/
def generate_version (current : String) (ts : String) : String :=
  match pySplitDot current with
  | [major, minor] =>
    match pyInt? minor with
    | some m => major ++ "." ++ intToStr (m + 1)
    | none => "1." ++ ts
  | _ => "1." ++ ts

/-- Python string comparison `a < b`: lexicographic on code points. -/
def charListLtb : List Char → List Char → Bool
  | [], [] => false
  | [], _ :: _ => true
  | _ :: _, [] => false
  | a :: as, b :: bs =>
    if a.toNat < b.toNat then true
    else if b.toNat < a.toNat then false
    else charListLtb as bs

/-- Python `a < b` on version strings (the lexicographic string order the
spec refers to). -/
def pyStrLt (a b : String) : Bool :=
  charListLtb a.data b.data

/-! ## Risk categories and response rounding (`app/workflow.py`) -/

/-- Embeds `RiskCategory` enum (schemas.py). -/
inductive RiskCategory where
  | high
  | medium
  | low
  deriving DecidableEq, Repr

/-- Exact rational multiplication, written out on numerator and
denominator so that concrete values evaluate inside the kernel. -/
def ratMul (a b : ℚ) : ℚ := mkRat (a.num * b.num) (a.den * b.den)

/-- Exact rational subtraction, written out on numerator and denominator
so that concrete values evaluate inside the kernel. -/
def ratSub (a b : ℚ) : ℚ :=
  mkRat (a.num * b.den - b.num * a.den) (a.den * b.den)

/-- The threshold cascade of `score_node` (workflow.py:148-153), identical
to `calculate_risk_category` in main.py:85-97: high at probability ≥ 0.7,
medium at ≥ 0.4, else low. -/
def risk_category (score : ℚ) : RiskCategory :=
  if score ≥ mkRat 7 10 then .high
  else if score ≥ mkRat 2 5 then .medium
  else .low

/-- Python `round` (banker's rounding) on an exact rational: nearest
integer, ties to even. -/
def pyRound (x : ℚ) : Int :=
  if ratSub x (x.floor : ℚ) < mkRat 1 2 then x.floor
  else if ratSub x (x.floor : ℚ) > mkRat 1 2 then x.floor + 1
  else if x.floor % 2 = 0 then x.floor else x.floor + 1

/-- Embeds `round(conversion_score, 4)` as performed by `respond_node`
(workflow.py:252): scale by 10^4, round to nearest, scale back. -/
def round4 (x : ℚ) : ℚ :=
  mkRat (pyRound (ratMul x 10000)) 10000

/-! ## Lead store: the `lead_scores` table (`app/database.py`) -/

/-- One row of the `lead_scores` table.  Columns declared `NOT NULL` in
`initialize_schema` (database.py:47-66) are non-optional here;
`actual_outcome` is a nullable boolean (stored as 0/1). -/
structure LeadRow where
  lead_id : String
  age : Int
  location : String
  industry : String
  email_opens : Int
  website_visits : Int
  content_downloads : Int
  days_since_contact : Int
  lead_source : String
  conversion_score : ℚ
  risk_category : String
  actual_outcome : Option Bool
  model_version : String
  timestamp : String
  deriving DecidableEq, Repr

/-- The `lead_data` dict that `store_node` hands to `insert_lead_score`
(workflow.py:174-189): the score and category come from the workflow state
and may still be `None` there. -/
structure LeadData where
  lead_id : String
  age : Int
  location : String
  industry : String
  email_opens : Int
  website_visits : Int
  content_downloads : Int
  days_since_contact : Int
  lead_source : String
  conversion_score : Option ℚ
  risk_category : Option String
  actual_outcome : Option Bool
  model_version : String
  timestamp : String
  deriving DecidableEq, Repr

/-- The `lead_scores` table. -/
abbrev LeadTable := List LeadRow

/-- Embeds `Database.insert_lead_score` (database.py:122-149):
`INSERT OR REPLACE INTO lead_scores ...` with `lead_id` declared `UNIQUE`,
i.e. delete any row with the same `lead_id` and insert the new row.  The
insert violates the `NOT NULL` constraints on `conversion_score` and
`risk_category` when the workflow state still holds `None` there, in which
case sqlite raises an `IntegrityError` and the transaction rolls back. -/
def insert_lead_score (d : LeadData) (tbl : LeadTable) :
    Except String LeadTable :=
  match d.conversion_score, d.risk_category with
  | some cs, some rc =>
    .ok ((tbl.filter (fun r => r.lead_id ≠ d.lead_id)) ++
      [{ lead_id := d.lead_id, age := d.age, location := d.location,
         industry := d.industry, email_opens := d.email_opens,
         website_visits := d.website_visits,
         content_downloads := d.content_downloads,
         days_since_contact := d.days_since_contact,
         lead_source := d.lead_source, conversion_score := cs,
         risk_category := rc, actual_outcome := d.actual_outcome,
         model_version := d.model_version, timestamp := d.timestamp }])
  | _, _ => .error "NOT NULL constraint failed"

/-- Embeds `Database.get_feedback_count` (database.py:162-171):
`SELECT COUNT(*) FROM lead_scores WHERE actual_outcome IS NOT NULL`. -/
def get_feedback_count (tbl : LeadTable) : Nat :=
  (tbl.filter (fun r => r.actual_outcome ≠ none)).length

/-- Embeds `Database.get_total_scores` (database.py:248-253). -/
def get_total_scores (tbl : LeadTable) : Nat := tbl.length

/-- Row lookup by lead identity (how the claims observe the store). -/
def lookup_lead (id : String) (tbl : LeadTable) : Option LeadRow :=
  tbl.find? (fun r => r.lead_id = id)

/-! ## Whole-database state and the system_metrics table -/

/-- Embeds `Database.update_system_metric` (database.py:255-263):
`INSERT OR REPLACE INTO system_metrics` keyed by `metric_key`. -/
def update_system_metric (key value : String)
    (m : List (String × String)) : List (String × String) :=
  (m.filter (fun kv => kv.1 ≠ key)) ++ [(key, value)]

/-- Embeds `get_system_metrics` / reading one key with a default, as
`system_info` does with `metrics.get("feedback_count", 0)`
(main.py:273-274). -/
def get_metric (key dflt : String) (m : List (String × String)) : String :=
  match m.find? (fun kv => kv.1 = key) with
  | some kv => kv.2
  | none => dflt

/-- The durable store plus the process-local model cache of
`app/workflow.py` (the `_model_cache` global, workflow.py:24-38).  The
cached artifact is represented by the metadata that reaches the workflow:
the active row's version and AUC. -/
structure Sys where
  leads : LeadTable
  registry : Registry
  metrics : List (String × String)
  cache : Option (String × ℚ)
  deriving DecidableEq, Repr

/-- Embeds `get_cached_model` (workflow.py:26-33): return the cache if populated,
else load the active model from the registry
(`ModelTrainer.load_from_database`) and populate the cache. -/
def get_cached_model (s : Sys) : Option (String × ℚ) × Sys :=
  match s.cache with
  | some m => (some m, s)
  | none =>
    match get_active_model s.registry with
    | some r => (some (r.version, r.auc_score),
                 { s with cache := some (r.version, r.auc_score) })
    | none => (none, s)

/-- Embeds `clear_model_cache` (workflow.py:35-38). -/
def clear_model_cache (s : Sys) : Sys := { s with cache := none }

/-! ## Scoring workflow (`app/workflow.py`) -/

/-- Embeds `LeadScoreRequest` (schemas.py), already validated by pydantic when it
reaches the workflow. -/
structure Req where
  lead_id : String
  age : Int
  location : String
  industry : String
  email_opens : Int
  website_visits : Int
  content_downloads : Int
  days_since_contact : Int
  lead_source : String
  actual_outcome : Option Bool
  deriving DecidableEq, Repr

/-- Embeds `LeadScoreResponse` (schemas.py), as built by `respond_node`. -/
structure Resp where
  lead_id : String
  conversion_score : ℚ
  risk_category : RiskCategory
  timestamp : String
  model_version : String
  deriving DecidableEq, Repr

/-- String values of the `RiskCategory` enum. -/
def riskValue : RiskCategory → String
  | .high => "high"
  | .medium => "medium"
  | .low => "low"

/-- Embeds `LeadScoringState` (workflow.py:45-68). -/
structure WfState where
  request : Option Req
  validation_errors : List String
  preprocessed_data : Option LeadData
  conversion_score : Option ℚ
  risk_cat : Option String
  stored : Bool
  feedback_count : Nat
  should_retrain : Bool
  response : Option Resp
  error : Option String
  model_version : String
  timestamp : String
  deriving DecidableEq, Repr

/-- A workflow node transforms the graph state; the store/score nodes also
touch the database and the model cache, so the context is state paired with
`Sys`.  The classifier probability for this lead is the oracle `predict`;
`retraining_threshold` is the configured feedback threshold. -/
structure WfCtx where
  st : WfState
  sys : Sys
  deriving DecidableEq, Repr

/-- Embeds `validate_node` (workflow.py:75-93): with a request present it only
resets `validation_errors`; with no request it records the error. -/
def validate_node (c : WfCtx) : WfCtx :=
  match c.st.request with
  | none => { c with st := { c.st with error := some "No request provided" } }
  | some _ => { c with st := { c.st with validation_errors := [] } }

/-- Embeds `preprocess_node` (workflow.py:96-121): build the feature dict from the
request.  With no request, `request.age` raises and the except-branch
records a preprocessing error.  The dict built here carries no score or
category yet. -/
def preprocess_node (c : WfCtx) : WfCtx :=
  match c.st.request with
  | none =>
    { c with st :=
      { c.st with error := some "Preprocessing failed: request is None" } }
  | some r =>
    let d : LeadData :=
      { lead_id := r.lead_id, age := r.age, location := r.location,
        industry := r.industry, email_opens := r.email_opens,
        website_visits := r.website_visits,
        content_downloads := r.content_downloads,
        days_since_contact := r.days_since_contact,
        lead_source := r.lead_source, conversion_score := none,
        risk_category := none, actual_outcome := none,
        model_version := "", timestamp := "" }
    { c with st := { c.st with preprocessed_data := some d } }

/-- Embeds `score_node` (workflow.py:124-162): load the model through the cache;
with no active model record `"No trained model available"`; otherwise run
the classifier (oracle `predict`), derive the risk category from the raw
probability, and record the model version from the artifact metadata.
With no preprocessed dict the feature preparation raises. -/
def score_node (predict : ℚ) (c : WfCtx) : WfCtx :=
  match get_cached_model c.sys with
  | (none, sys') =>
    { st := { c.st with error := some "No trained model available" },
      sys := sys' }
  | (some (ver, _), sys') =>
    match c.st.preprocessed_data with
    | none =>
      { st := { c.st with error := some "Scoring failed: no preprocessed data" },
        sys := sys' }
    | some _ =>
      { st := { c.st with
          conversion_score := some predict,
          risk_cat := some (riskValue (risk_category predict)),
          model_version := ver },
        sys := sys' }

/-- Embeds `store_node` (workflow.py:165-209): build `lead_data` from the request
and the state's score fields, upsert it, refresh the `total_scores`
metric, and refresh the `feedback_count` metric only when this request
carried an outcome.  Any exception (including the `IntegrityError` from a
`NULL` score) records a storage error and leaves `stored` false. -/
def store_node (c : WfCtx) : WfCtx :=
  match c.st.request with
  | none =>
    { c with st :=
      { c.st with
          stored := false
          error := some "Storage failed: request is None" } }
  | some r =>
    let d : LeadData :=
      { lead_id := r.lead_id, age := r.age, location := r.location,
        industry := r.industry, email_opens := r.email_opens,
        website_visits := r.website_visits,
        content_downloads := r.content_downloads,
        days_since_contact := r.days_since_contact,
        lead_source := r.lead_source,
        conversion_score := c.st.conversion_score,
        risk_category := c.st.risk_cat,
        actual_outcome := r.actual_outcome,
        model_version := c.st.model_version,
        timestamp := c.st.timestamp }
    match insert_lead_score d c.sys.leads with
    | .error e =>
      { c with st :=
        { c.st with
            stored := false
            error := some ("Storage failed: " ++ e) } }
    | .ok leads' =>
      let m1 := update_system_metric "total_scores"
        (natToString (get_total_scores leads')) c.sys.metrics
      match r.actual_outcome with
      | some _ =>
        let fc := get_feedback_count leads'
        let m2 := update_system_metric "feedback_count" (natToString fc) m1
        { st := { c.st with stored := true, feedback_count := fc }
          sys := { c.sys with leads := leads', metrics := m2 } }
      | none =>
        { st := { c.st with stored := true }
          sys := { c.sys with leads := leads', metrics := m1 } }

/-- Embeds `learn_node` (workflow.py:212-234): set `should_retrain` from the
threshold comparison (the background retraining fire-and-forget is a
detached thread and not part of the graph-state transition). -/
def learn_node (thr : Nat) (c : WfCtx) : WfCtx :=
  if c.st.feedback_count ≥ thr then
    { c with st := { c.st with should_retrain := true } }
  else
    { c with st := { c.st with should_retrain := false } }

/-- Embeds `RiskCategory(value)` enum lookup used by `respond_node`
(workflow.py:253); an unknown value raises `ValueError`. -/
def riskOfValue (s : String) : Option RiskCategory :=
  if s = "high" then some .high
  else if s = "medium" then some .medium
  else if s = "low" then some .low
  else none

/-- Embeds `respond_node` (workflow.py:237-263): with an error recorded, return
the state untouched; otherwise build the response, rounding the score to 4
decimal digits.  Missing fields would raise and record a formatting
error. -/
def respond_node (c : WfCtx) : WfCtx :=
  match c.st.error with
  | some _ => c
  | none =>
    match c.st.request, c.st.conversion_score, c.st.risk_cat with
    | some r, some cs, some rc =>
      match riskOfValue rc with
      | some cat =>
        let resp : Resp :=
          { lead_id := r.lead_id, conversion_score := round4 cs,
            risk_category := cat, timestamp := c.st.timestamp,
            model_version := c.st.model_version }
        { c with st := { c.st with response := some resp } }
      | none =>
        { c with st :=
          { c.st with error := some "Response formatting failed" } }
    | _, _, _ =>
      { c with st :=
        { c.st with error := some "Response formatting failed" } }

/-! ## Workflow graph (`create_workflow`, workflow.py:270-297) -/

/-- The `add_node` calls of `create_workflow`, dispatching each node name
to its function.  An unknown name leaves the context unchanged (LangGraph
would refuse to compile such a graph). -/
def apply_node (predict : ℚ) (thr : Nat) (name : String) (c : WfCtx) : WfCtx :=
  if name = "validate" then validate_node c
  else if name = "preprocess" then preprocess_node c
  else if name = "score" then score_node predict c
  else if name = "store" then store_node c
  else if name = "learn" then learn_node thr c
  else if name = "respond" then respond_node c
  else c

/-- The `add_edge` calls of `create_workflow` (workflow.py:287-292); the
edge `respond → END` is represented by `respond` having no successor. -/
def wf_edges : List (String × String) :=
  [("validate", "preprocess"), ("preprocess", "score"),
   ("score", "store"), ("store", "learn"), ("learn", "respond")]

/-- Successor lookup over the declared edges. -/
def next_node (name : String) : Option String :=
  (wf_edges.find? (fun e => e.1 = name)).map (·.2)

/-- Embeds `set_entry_point("validate")` (workflow.py:295). -/
def entry_point : String := "validate"

/-- Compiled-graph execution: run the current node, then follow its (only)
outgoing edge until a node with no successor has run.  Returns the list of
executed node names in order, and the final context.  Fuel bounds the walk;
the graph is a finite chain so 6 steps suffice. -/
def run_from (predict : ℚ) (thr : Nat) :
    Nat → String → WfCtx → List String × WfCtx
  | 0, _, c => ([], c)
  | fuel + 1, cur, c =>
    let c' := apply_node predict thr cur c
    match next_node cur with
    | some nxt =>
      let r := run_from predict thr fuel nxt c'
      (cur :: r.1, r.2)
    | none => ([cur], c')

/-- One full invocation of the compiled workflow. -/
def run_workflow (predict : ℚ) (thr : Nat) (c : WfCtx) :
    List String × WfCtx :=
  run_from predict thr 6 entry_point c

/-- The initial state built by `LeadScoringAgent.score_lead`
(workflow.py:324-338); `cfgVer` is `settings.model_version` and `ts` the
wall-clock ISO timestamp. -/
def init_state (req : Req) (ts cfgVer : String) : WfState :=
  { request := some req, validation_errors := [], preprocessed_data := none,
    conversion_score := none, risk_cat := none, stored := false,
    feedback_count := 0, should_retrain := false, response := none,
    error := none, model_version := cfgVer, timestamp := ts }

/-- Embeds `score_lead` (workflow.py:311-348): invoke the graph, raise the
recorded error if any, otherwise return the response. -/
def score_lead (predict : ℚ) (thr : Nat) (req : Req) (sys : Sys)
    (ts cfgVer : String) : Except String (Option Resp) × Sys :=
  let r := run_workflow predict thr ⟨init_state req ts cfgVer, sys⟩
  match r.2.st.error with
  | some e => (.error e, r.2.sys)
  | none => (.ok r.2.st.response, r.2.sys)

/-! ## Retraining manager (`app/retraining.py`, `app/model.py`) -/

/-- The result dicts of `RetrainingManager.check_and_retrain` and
`_execute_retraining`, by their `status` field. -/
inductive RetrainResult where
  | already_retraining
  | insufficient_feedback (feedback_count threshold : Nat)
  | error (msg : String)
  | no_improvement
  | success (old_version new_version : String) (old_auc new_auc : ℚ)
  deriving DecidableEq, Repr

/-- Embeds `RetrainingManager` instance state (retraining.py:22-26) together with
the database it talks to. -/
structure RMState where
  sys : Sys
  is_retraining : Bool
  last_check_time : Option String
  last_retrain_time : Option String
  deriving DecidableEq, Repr

/-- The gate of `retrain_model` (model.py:290-301): keep the new trainer
only if `new_auc - current_auc >= accuracy_improvement_threshold`. -/
def retrain_model_improves (new_auc current_auc impThr : ℚ) : Bool :=
  ratSub new_auc current_auc ≥ impThr

/-- Embeds `ModelTrainer.save_to_database` (model.py:160-197): save the model row
with `active = 1`, then `set_active_model`, then refresh the
`last_training` metric — three separate database transactions. -/
def save_to_database (version : String) (auc : ℚ) (ts : String)
    (s : Sys) : Sys :=
  let s1 := { s with registry := save_model version auc true s.registry }
  let s2 := { s1 with registry := set_active_model version s1.registry }
  { s2 with metrics := update_system_metric "last_training" ts s2.metrics }

/-- Embeds `_execute_retraining` (retraining.py:79-166).  `train` is the training
oracle: the AUC of the freshly fitted model, or the exception message when
the classifier fit raises (`Except.error` propagates out of the method).
`ts` is the wall clock.  Steps on success, in source order: deactivate all
models; `save_to_database` (save + activate + last_training); clear the
model cache; refresh `last_retraining` and `model_version` metrics. -/
def execute_retraining (impThr : ℚ) (train : Except String ℚ) (ts : String)
    (_feedback_count : Nat) (current_version : String) (current_auc : ℚ)
    (s : Sys) : Except String RetrainResult × Sys :=
  if (s.leads.filter (fun r => r.actual_outcome ≠ none)).length = 0 then
    (.ok (.error "No feedback data available"), s)
  else
    match train with
    | .error e => (.error e, s)
    | .ok new_auc =>
      if ¬ retrain_model_improves new_auc current_auc impThr then
        (.ok .no_improvement, s)
      else
        let new_version := generate_version current_version ts
        let s1 := { s with registry := deactivate_all_models s.registry }
        let s2 := save_to_database new_version new_auc ts s1
        let s3 := clear_model_cache s2
        let s4 := { s3 with metrics :=
          update_system_metric "last_retraining" ts s3.metrics }
        let s5 := { s4 with metrics :=
          update_system_metric "model_version" new_version s4.metrics }
        (.ok (.success current_version new_version current_auc new_auc), s5)

/-- Embeds `check_and_retrain` (retraining.py:28-77).  The whole body runs under
`retrain_lock`; this function is its sequential semantics.  A raised
training exception propagates (`Except.error`) but the `finally` block
still resets `is_retraining`, and `last_retrain_time` is only set on a
normal return. -/
def check_and_retrain (fbThr : Nat) (impThr : ℚ) (train : Except String ℚ)
    (ts : String) (rm : RMState) : Except String RetrainResult × RMState :=
  if rm.is_retraining then
    (.ok .already_retraining, rm)
  else
    let rm := { rm with last_check_time := some ts }
    let fc := get_feedback_count rm.sys.leads
    if fc < fbThr then
      (.ok (.insufficient_feedback fc fbThr), rm)
    else
      match get_active_model rm.sys.registry with
      | none => (.ok (.error "No current model found"), rm)
      | some cur =>
        let rm1 := { rm with is_retraining := true }
        match execute_retraining impThr train ts fc cur.version
            cur.auc_score rm1.sys with
        | (.ok res, sys') =>
          (.ok res,
           { rm1 with
               sys := sys'
               is_retraining := false
               last_retrain_time := some ts })
        | (.error e, sys') =>
          (.error e, { rm1 with sys := sys', is_retraining := false })

/-- Embeds `get_status` (retraining.py:203-220): a pure read reporting the live
feedback count from the store. -/
def get_status_feedback_count (rm : RMState) : Nat :=
  get_feedback_count rm.sys.leads

/-- The `feedback_samples_collected` field of the `/info` endpoint
(`system_info`, main.py:247-297): `int(metrics.get("feedback_count", 0))`
read from the cached `system_metrics` table, not from a live count. -/
def info_feedback_count (s : Sys) : String :=
  get_metric "feedback_count" "0" s.metrics

/-- The `/retrain` endpoint (`manual_retrain`, main.py:324-357): a normal
result is returned as-is (insufficient feedback becomes a 400 error
response), and a propagated exception is caught and surfaced as a 500
`InternalServerError` response. -/
inductive ApiRetrain where
  | ok (r : RetrainResult)
  | badRequest (msg : String)
  | internalError (msg : String)
  deriving DecidableEq, Repr

/-- Embeds `manual_retrain` mapping of `check_and_retrain`'s outcome. -/
def manual_retrain (out : Except String RetrainResult) : ApiRetrain :=
  match out with
  | .error e => .internalError ("Retraining failed: " ++ e)
  | .ok (.insufficient_feedback fc thr) =>
    .badRequest ("Need " ++ toString (thr - fc) ++ " more feedback samples")
  | .ok r => .ok r

/-! ## Concurrency model of `check_and_retrain` (retraining.py:28-77)

Two tasks each invoke `check_and_retrain` once.  The whole method body sits
inside `with self.retrain_lock`, so the atomic actions of a task are:
acquire the lock; read `is_retraining` (returning the already-retraining
dict if it is set); either return early from the CHECKING phase
(insufficient feedback / no model) or set the flag and enter TRAINING;
reset the flag in the `finally` block; release the lock on exit from the
`with` block.  A task whose only pending action is `acquire` blocks while
the other task holds the lock. -/

/-- Program counter of one task inside `check_and_retrain`. -/
inductive PC where
  | start      -- before `with self.retrain_lock`
  | acquired   -- lock held, about to read `is_retraining`
  | checked    -- flag was false; CHECKING phase done
  | working    -- `is_retraining = True`; inside `_execute_retraining`
  | releasing  -- `finally` ran (`is_retraining = False`); about to exit
  | done       -- returned
  deriving DecidableEq, Repr

/-- The two concurrent callers. -/
inductive Tid where
  | t0
  | t1
  deriving DecidableEq, Repr

/-- Shared state plus per-task control state.  `res` records how a task
returned: `some true` for the already-retraining dict, `some false` for
any other return.  `ww` records whether the task ever entered the TRAINING
phase. -/
structure Config where
  lock : Option Tid
  flag : Bool
  pcA : PC
  pcB : PC
  resA : Option Bool
  resB : Option Bool
  wwA : Bool
  wwB : Bool
  deriving DecidableEq, Repr

/-- Program counter of task `i`. -/
def Config.pc (c : Config) : Tid → PC
  | .t0 => c.pcA
  | .t1 => c.pcB

/-- Result of task `i`. -/
def Config.res (c : Config) : Tid → Option Bool
  | .t0 => c.resA
  | .t1 => c.resB

/-- Set the program counter of task `i`. -/
def setPc (i : Tid) (p : PC) (c : Config) : Config :=
  match i with
  | .t0 => { c with pcA := p }
  | .t1 => { c with pcB := p }

/-- Set the result of task `i`. -/
def setRes (i : Tid) (r : Option Bool) (c : Config) : Config :=
  match i with
  | .t0 => { c with resA := r }
  | .t1 => { c with resB := r }

/-- Mark that task `i` entered TRAINING. -/
def setWw (i : Tid) (c : Config) : Config :=
  match i with
  | .t0 => { c with wwA := true }
  | .t1 => { c with wwB := true }

/-- Interleaved small-step semantics of the two calls.  `acquire` is only
enabled while no task holds the lock — a second caller queues there. -/
inductive Step : Config → Config → Prop where
  | acquire (i : Tid) (c : Config) :
      c.pc i = .start → c.lock = none →
      Step c (setPc i .acquired { c with lock := some i })
  | readFlagTrue (i : Tid) (c : Config) :
      c.pc i = .acquired → c.flag = true →
      Step c (setRes i (some true) (setPc i .done { c with lock := none }))
  | readFlagFalse (i : Tid) (c : Config) :
      c.pc i = .acquired → c.flag = false →
      Step c (setPc i .checked c)
  | earlyReturn (i : Tid) (c : Config) :
      c.pc i = .checked →
      Step c (setRes i (some false) (setPc i .done { c with lock := none }))
  | setFlag (i : Tid) (c : Config) :
      c.pc i = .checked →
      Step c (setWw i (setPc i PC.working { c with flag := true }))
  | resetFlag (i : Tid) (c : Config) :
      c.pc i = PC.working →
      Step c (setPc i .releasing { c with flag := false })
  | release (i : Tid) (c : Config) :
      c.pc i = .releasing →
      Step c (setRes i (some false) (setPc i .done { c with lock := none }))

/-- Both tasks about to call `check_and_retrain` on an idle manager
(`is_retraining = False`, lock free). -/
def initConfig : Config :=
  { lock := none, flag := false, pcA := .start, pcB := .start,
    resA := none, resB := none, wwA := false, wwB := false }

/-- Configurations reachable in some interleaving of the two calls. -/
inductive Reach : Config → Prop where
  | init : Reach initConfig
  | step {c c' : Config} : Reach c → Step c c' → Reach c'

/-- Task `i` is inside the `with retrain_lock` block. -/
def inLock (p : PC) : Prop :=
  p = PC.acquired ∨ p = PC.checked ∨ p = PC.working ∨ p = PC.releasing

/-- Lock discipline invariant: nobody has returned the already-retraining
dict; the flag is set only while its owner holds the lock inside TRAINING;
a task between acquire and release is the lock holder. -/
def LockInv (c : Config) : Prop :=
  c.resA ≠ some true ∧ c.resB ≠ some true ∧
  (c.flag = true →
    (c.lock = some Tid.t0 ∧ c.pcA = PC.working) ∨
    (c.lock = some Tid.t1 ∧ c.pcB = PC.working)) ∧
  (inLock c.pcA → c.lock = some Tid.t0) ∧
  (inLock c.pcB → c.lock = some Tid.t1)

/-! ## Deployment as a transaction sequence, and concrete fixtures -/

/-- The registry transactions of a successful deployment, in the order
`_execute_retraining` (retraining.py:141-148) and `save_to_database`
(model.py:178-192) issue them; each element is one committed SQLite
transaction. -/
def deploy_transactions (newV : String) (newAuc : ℚ) :
    List (Registry → Registry) :=
  [deactivate_all_models, save_model newV newAuc true, set_active_model newV]

/-- The registry contents at every commit point of a deployment: the state
before, and the state after each transaction.  These are exactly the
states a concurrent `get_active_model` reader (its own connection) can
observe. -/
def deploy_states (newV : String) (newAuc : ℚ) (reg : Registry) :
    List Registry :=
  List.scanl (fun r f => f r) reg (deploy_transactions newV newAuc)

/-- A registry holding one active model `1.0` with AUC 0.8. -/
def c1reg : Registry := [⟨"1.0", mkRat 4 5, true⟩]

/-- One stored lead that carries feedback. -/
def leadFb : LeadRow :=
  { lead_id := "L-1", age := 35, location := "NY", industry := "Tech",
    email_opens := 20, website_visits := 15, content_downloads := 7,
    days_since_contact := 5, lead_source := "Webinar",
    conversion_score := mkRat 1 2, risk_category := "medium",
    actual_outcome := some true, model_version := "1.0",
    timestamp := "T0" }

/-- Database state for the deployment scenario: one feedback lead, one
active model. -/
def c1sys : Sys :=
  { leads := [leadFb], registry := c1reg, metrics := [],
    cache := some ("1.0", mkRat 4 5) }

/-- A valid scoring request without feedback. -/
def req0 : Req :=
  { lead_id := "L-1", age := 35, location := "NY", industry := "Tech",
    email_opens := 20, website_visits := 15, content_downloads := 7,
    days_since_contact := 5, lead_source := "Webinar",
    actual_outcome := none }

/-- The same lead submitted with feedback `true`. -/
def reqFb : Req := { req0 with actual_outcome := some true }

/-- A fresh database: no leads, no models, metrics as
`initialize_schema` seeds them (database.py:108-120), cold cache. -/
def sysEmpty : Sys :=
  { leads := [], registry := [],
    metrics := [("total_scores", "0"), ("feedback_count", "0"),
                ("last_training", "never")],
    cache := none }

/-- A bootstrapped database: no leads yet, model `1.0` active. -/
def sysBoot : Sys := { sysEmpty with registry := c1reg }

/-- A repeat submission of lead `L-1` that omits the outcome
(`actual_outcome = None`). -/
def d5 : LeadData :=
  { lead_id := "L-1", age := 36, location := "SF", industry := "Fin",
    email_opens := 1, website_visits := 2, content_downloads := 3,
    days_since_contact := 4, lead_source := "Referral",
    conversion_score := some (mkRat 3 10), risk_category := some "low",
    actual_outcome := none, model_version := "1.0", timestamp := "T2" }

/-- The stored row produced by upserting `d5`. -/
def row5 : LeadRow :=
  { lead_id := "L-1", age := 36, location := "SF", industry := "Fin",
    email_opens := 1, website_visits := 2, content_downloads := 3,
    days_since_contact := 4, lead_source := "Referral",
    conversion_score := mkRat 3 10, risk_category := "low",
    actual_outcome := none, model_version := "1.0", timestamp := "T2" }

/-- Manager over the bootstrapped database with one feedback lead. -/
def rmBoot : RMState :=
  { sys := c1sys, is_retraining := false, last_check_time := none,
    last_retrain_time := none }

/-- Manager over the bootstrapped database with no feedback yet. -/
def rmEmpty : RMState :=
  { sys := sysBoot, is_retraining := false, last_check_time := none,
    last_retrain_time := none }

/-- Database whose active model carries version `1.9`. -/
def c9sys : Sys :=
  { leads := [leadFb], registry := [⟨"1.9", mkRat 4 5, true⟩],
    metrics := [], cache := none }

/-! ## Helper lemmas -/

/-- Lemma: `mkRat` as division. -/
theorem mkRat_div (n : Int) (d : Nat) : (mkRat n d : ℚ) = (n : ℚ) / (d : ℚ) := by
  rw [Rat.mkRat_eq_divInt, Rat.divInt_eq_div]
  norm_cast

/-- The kernel-friendly multiplication agrees with `*`. -/
theorem ratMul_eq (a b : ℚ) : ratMul a b = a * b := by
  rw [ratMul, mkRat_div]
  push_cast
  rw [← div_mul_div_comm, Rat.num_div_den, Rat.num_div_den]

/-- The kernel-friendly subtraction agrees with `-`. -/
theorem ratSub_eq (a b : ℚ) : ratSub a b = a - b := by
  have ha : ((a.den : ℚ)) ≠ 0 := by
    exact_mod_cast a.den_nz
  have hb : ((b.den : ℚ)) ≠ 0 := by
    exact_mod_cast b.den_nz
  rw [ratSub, mkRat_div]
  push_cast
  have h : ((a.num : ℚ) * b.den - b.num * a.den) =
      (a.num * b.den - a.den * b.num) := by ring
  rw [h, ← div_sub_div _ _ ha hb, Rat.num_div_den, Rat.num_div_den]

/-- Enum round trip used by `respond_node`. -/
theorem riskOfValue_riskValue (c : RiskCategory) :
    riskOfValue (riskValue c) = some c := by
  cases c <;> rfl

/-- Lemma: `set_active_model` preserves the number of rows. -/
theorem length_set_active_model (v : String) (reg : Registry) :
    (set_active_model v reg).length = reg.length := by
  simp [set_active_model]

/-- Lemma: `save_model` adds one row. -/
theorem length_save_model (v : String) (a : ℚ) (f : Bool) (reg : Registry) :
    (save_model v a f reg).length = reg.length + 1 := by
  simp [save_model]

/-- Lemma: `deactivate_all_models` preserves the number of rows. -/
theorem length_deactivate_all_models (reg : Registry) :
    (deactivate_all_models reg).length = reg.length := by
  simp [deactivate_all_models]

/-- Reading a metric key just written returns the written value. -/
theorem get_metric_update (k d v : String) (m : List (String × String)) :
    get_metric k d (update_system_metric k v m) = v := by
  have hleft : (m.filter (fun kv => kv.1 ≠ k)).find? (fun kv => kv.1 = k) = none := by
    rw [List.find?_eq_none]
    intro kv hkv
    have := List.of_mem_filter hkv
    simpa using this
  rw [get_metric, update_system_metric, List.find?_append, hleft]
  simp

/-! ## Claim C10 -/

/-- C10: `set_active_model` called with a version absent from the `models`
table deactivates every stored model and activates none: it returns
without error and leaves the registry with zero active rows, so
`get_active_model` subsequently returns nothing. -/
theorem set_active_model_unknown_version (reg : Registry) (v : String)
    (h : ∀ r ∈ reg, r.version ≠ v) :
    countActive (set_active_model v reg) = 0 ∧
    get_active_model (set_active_model v reg) = none := by
  have key : ∀ r ∈ set_active_model v reg, r.active = false := by
    intro r hr
    rw [set_active_model] at hr
    simp only [List.mem_map] at hr
    obtain ⟨x, hx, hxe⟩ := hr
    obtain ⟨y, hy, hye⟩ := hx
    have hyv : y.version ≠ v := h y hy
    subst hye
    simp only [hyv, if_neg] at hxe
    subst hxe
    rfl
  constructor
  · rw [countActive, List.length_eq_zero, List.filter_eq_nil_iff]
    intro r hr
    simp [key r hr]
  · rw [get_active_model, List.find?_eq_none]
    intro r hr
    simp [key r hr]

/-- C10 witness: a registry holding only version `1.0`, activated with the
unknown version `2.0`, ends with zero active models. -/
theorem set_active_model_unknown_version_witness :
    countActive (set_active_model "2.0" c1reg) = 0 ∧
    get_active_model (set_active_model "2.0" c1reg) = none :=
  set_active_model_unknown_version c1reg "2.0" (by decide)

/-! ## Claim C1 -/

/-- C1 (claim refuted on the code): a successful deployment is NOT atomic.
`_execute_retraining` commits `deactivate_all_models` as its own
transaction before `save_to_database` commits the save and the activation,
so the commit-point trace of a successful deployment contains a registry
state with zero active models, observable by any concurrent
`get_active_model` reader.  Starting from one active model `1.0`:
the state right after the first transaction has no active row, while the
deployment as a whole succeeds and ends with exactly `1.1` active, and
`execute_retraining`'s final registry is exactly the composition of the
three transactions. -/
theorem deployment_zero_active_window :
    countActive c1reg = 1 ∧
    deploy_states "1.1" (mkRat 9 10) c1reg =
      [c1reg,
       deactivate_all_models c1reg,
       save_model "1.1" (mkRat 9 10) true (deactivate_all_models c1reg),
       set_active_model "1.1"
         (save_model "1.1" (mkRat 9 10) true (deactivate_all_models c1reg))] ∧
    countActive (deactivate_all_models c1reg) = 0 ∧
    get_active_model (deactivate_all_models c1reg) = none ∧
    (execute_retraining (mkRat 1 50) (.ok (mkRat 9 10)) "TS" 1 "1.0"
        (mkRat 4 5) c1sys).1 =
      .ok (.success "1.0" "1.1" (mkRat 4 5) (mkRat 9 10)) ∧
    (execute_retraining (mkRat 1 50) (.ok (mkRat 9 10)) "TS" 1 "1.0"
        (mkRat 4 5) c1sys).2.registry =
      set_active_model "1.1"
        (save_model "1.1" (mkRat 9 10) true (deactivate_all_models c1reg)) ∧
    get_active_model
        (set_active_model "1.1"
          (save_model "1.1" (mkRat 9 10) true (deactivate_all_models c1reg))) =
      some ⟨"1.1", mkRat 9 10, true⟩ ∧
    countActive
        (set_active_model "1.1"
          (save_model "1.1" (mkRat 9 10) true (deactivate_all_models c1reg))) = 1 :=
  ⟨by decide, by decide, by decide, by decide, by rfl, by rfl, by decide,
   by decide⟩

/-! ## Claim C9 -/

/-- C9 counterexample: deploying from active version `1.9` generates
`1.10`, and `"1.10" < "1.9"` in the lexicographic string order — so
version strings are NOT monotonically increasing lexicographically across
deployments.  The deployment itself succeeds and activates `1.10`. -/
theorem version_not_lex_monotone :
    generate_version "1.9" "20260101000000" = "1.10" ∧
    pyStrLt "1.10" "1.9" = true ∧
    pyStrLt "1.9" "1.10" = false ∧
    (execute_retraining (mkRat 1 50) (.ok (mkRat 9 10)) "20260101000000" 1
        "1.9" (mkRat 4 5) c9sys).1 =
      .ok (.success "1.9" "1.10" (mkRat 4 5) (mkRat 9 10)) ∧
    get_active_model
        (execute_retraining (mkRat 1 50) (.ok (mkRat 9 10)) "20260101000000" 1
          "1.9" (mkRat 4 5) c9sys).2.registry =
      some ⟨"1.10", mkRat 9 10, true⟩ :=
  ⟨by decide, by decide, by decide, by rfl, by decide⟩

/-! ## Claim C9, amended part: digit and split lemmas -/

/-- Lemma: `splitDotAux` on a dot-free list yields one piece. -/
theorem splitDotAux_no_dot (xs : List Char) (acc : List Char)
    (h : ∀ c ∈ xs, c ≠ '.') :
    splitDotAux xs acc = [acc.reverse ++ xs] := by
  induction xs generalizing acc with
  | nil => simp [splitDotAux]
  | cons x xs ih =>
    have hx : x ≠ '.' := h x (by simp)
    rw [splitDotAux, if_neg hx, ih _ (fun c hc => h c (by simp [hc]))]
    simp

/-- Lemma: `splitDotAux` cuts at the first dot. -/
theorem splitDotAux_append (xs rest acc : List Char)
    (h : ∀ c ∈ xs, c ≠ '.') :
    splitDotAux (xs ++ '.' :: rest) acc =
      (acc.reverse ++ xs) :: splitDotAux rest [] := by
  induction xs generalizing acc with
  | nil => simp [splitDotAux]
  | cons x xs ih =>
    have hx : x ≠ '.' := h x (by simp)
    rw [List.cons_append, splitDotAux, if_neg hx,
      ih _ (fun c hc => h c (by simp [hc]))]
    simp

/-- Rebuilding a string from its characters is the identity. -/
theorem strMk_data (s : String) : (⟨s.data⟩ : String) = s := by
  cases s
  rfl

/-- Lemma: `split('.')` of `x ++ "." ++ y` with dot-free `x`, `y` is `[x, y]`. -/
theorem pySplitDot_pair (x y : String) (hx : ∀ c ∈ x.data, c ≠ '.')
    (hy : ∀ c ∈ y.data, c ≠ '.') :
    pySplitDot (x ++ "." ++ y) = [x, y] := by
  have hdata : (x ++ "." ++ y).data = x.data ++ '.' :: y.data := by
    simp [String.data_append]
  rw [pySplitDot, hdata, splitDotAux_append _ _ _ hx,
    splitDotAux_no_dot _ _ hy]
  simp [strMk_data]

/-- Lemma: `natDigitsAux` of zero is empty. -/
theorem natDigitsAux_zero (fuel : Nat) : natDigitsAux fuel 0 = [] := by
  cases fuel <;> simp [natDigitsAux]

/-- Decimal value of a digit character built from `d < 10`. -/
theorem charVal?_digitChar (d : Nat) (hd : d < 10) :
    charVal? (Char.ofNat (48 + d)) = some d := by
  interval_cases d <;> decide

/-- Every character produced by `natDigitsAux` is a decimal digit. -/
theorem natDigitsAux_mem_digit :
    ∀ fuel n c, c ∈ natDigitsAux fuel n → ∃ d, d < 10 ∧ c = Char.ofNat (48 + d) := by
  intro fuel
  induction fuel with
  | zero => intro n c hc; simp [natDigitsAux] at hc
  | succ fuel ih =>
    intro n c hc
    rw [natDigitsAux] at hc
    by_cases hn : n = 0
    · simp [hn] at hc
    · rw [if_neg hn] at hc
      rcases List.mem_append.mp hc with h | h
      · exact ih _ _ h
      · refine ⟨n % 10, Nat.mod_lt _ (by omega), ?_⟩
        simpa using h

/-- Appending one digit multiplies the parsed value by ten and adds it. -/
theorem digitsVal?_append_digit (xs : List Char) (c : Char) (d v : Nat)
    (hc : charVal? c = some d) :
    ∀ acc, digitsVal? xs acc = some v →
      digitsVal? (xs ++ [c]) acc = some (10 * v + d) := by
  induction xs with
  | nil =>
    intro acc h
    simp only [digitsVal?] at h
    subst h
    simp [digitsVal?, hc]
  | cons x xs ih =>
    intro acc h
    rw [List.cons_append]
    cases hx : charVal? x with
    | none =>
      simp only [digitsVal?, hx] at h
      cases acc <;> simp at h
    | some dx =>
      cases acc with
      | none =>
        simp only [digitsVal?, hx] at h ⊢
        exact ih _ h
      | some a =>
        simp only [digitsVal?, hx] at h ⊢
        exact ih _ h

/-- Parsing the decimal digits of a positive `n` gives back `n`. -/
theorem digitsVal?_natDigitsAux :
    ∀ fuel n, 0 < n → n ≤ fuel →
      digitsVal? (natDigitsAux fuel n) none = some n := by
  intro fuel
  induction fuel with
  | zero => intro n hn hle; omega
  | succ fuel ih =>
    intro n hn hle
    rw [natDigitsAux, if_neg (by omega)]
    by_cases h10 : n < 10
    · have hq : n / 10 = 0 := Nat.div_eq_of_lt h10
      rw [hq, natDigitsAux_zero, List.nil_append]
      have hcv := charVal?_digitChar (n % 10) (Nat.mod_lt _ (by omega))
      rw [Nat.mod_eq_of_lt h10] at hcv
      simp [digitsVal?, hcv, Nat.mod_eq_of_lt h10]
    · have hdiv : n / 10 < n := Nat.div_lt_self (by omega) (by omega)
      have hrec := ih (n / 10) (Nat.div_pos (by omega) (by omega)) (by omega)
      have happ := digitsVal?_append_digit (natDigitsAux fuel (n / 10))
        (Char.ofNat (48 + n % 10)) (n % 10) (n / 10)
        (charVal?_digitChar _ (Nat.mod_lt _ (by omega))) none hrec
      rw [happ, Nat.div_add_mod]

/-- Lemma: `int(str(m)) = m` for a natural `m`. -/
theorem pyInt?_natToString (m : Nat) : pyInt? (natToString m) = some (m : Int) := by
  by_cases hm : m = 0
  · subst hm; decide
  · rw [natToString, if_neg hm]
    have hdigits := digitsVal?_natDigitsAux m m (by omega) (le_refl m)
    cases hl : natDigitsAux m m with
    | nil => rw [hl] at hdigits; simp [digitsVal?] at hdigits
    | cons c cs =>
      have hcmem : c ∈ natDigitsAux m m := by rw [hl]; simp
      obtain ⟨d, hd, hcd⟩ := natDigitsAux_mem_digit m m c hcmem
      have hcne : c ≠ '-' := by
        subst hcd
        interval_cases d <;> decide
      rw [hl] at hdigits
      simp [pyInt?, hl, if_neg hcne, hdigits]

/-- C9, amended: whenever the current version splits on `.` into exactly a
(major, minor) pair whose minor is the decimal form of a natural `m`, the
generated version keeps the major part verbatim and carries minor `m + 1`;
the minor component therefore increases numerically across deployments,
though not lexicographically as strings. -/
theorem version_minor_increment (maj : String)
    (hmaj : ∀ c ∈ maj.data, c ≠ '.') (m : Nat) (ts : String) :
    generate_version (maj ++ "." ++ natToString m) ts =
      maj ++ "." ++ natToString (m + 1) := by
  have hnd : ∀ c ∈ (natToString m).data, c ≠ '.' := by
    intro c hc
    by_cases hm : m = 0
    · subst hm
      simp [natToString] at hc
      subst hc
      decide
    · rw [natToString, if_neg hm] at hc
      obtain ⟨d, hd, hcd⟩ := natDigitsAux_mem_digit m m c hc
      subst hcd
      interval_cases d <;> decide
  have hstr : intToStr ((m : Nat) + 1 : Int) = natToString (m + 1) := by
    rw [intToStr, if_neg (by omega)]
    norm_cast
  simp only [generate_version, pySplitDot_pair _ _ hmaj hnd,
    pyInt?_natToString, hstr]

/-- C9 amended witness: from version `1.9` (major `1`, minor `9`) the next
version is `1.10`. -/
theorem version_minor_increment_witness :
    (∀ c ∈ ("1" : String).data, c ≠ '.') ∧
    generate_version ("1" ++ "." ++ natToString 9) "X" =
      "1" ++ "." ++ natToString 10 :=
  ⟨by decide, version_minor_increment "1" (by decide) 9 "X"⟩

/-! ## Claim C5 -/

/-- C5 counterexample: lead `L-1` is stored with outcome `true`; the
upsert of a later submission for the same identity that omits
`actual_outcome` replaces the whole row, and the previously persisted
outcome is now NULL — omission DOES clear it. -/
theorem resubmission_clears_outcome :
    leadFb.actual_outcome = some true ∧
    lookup_lead "L-1" [leadFb] = some leadFb ∧
    insert_lead_score d5 [leadFb] = .ok [row5] ∧
    lookup_lead "L-1" [row5] = some row5 ∧
    row5.actual_outcome = none :=
  ⟨by decide, by decide, by rfl, by decide, by decide⟩

/-- C5, amended: the upsert replaces the stored row for the identity
wholesale — every field, including `actual_outcome`, is taken from the new
submission; when the submission omits the outcome the stored outcome
becomes NULL regardless of what was persisted before. -/
theorem upsert_overwrites_all_fields (tbl : LeadTable) (d : LeadData)
    (cs : ℚ) (rc : String) (hcs : d.conversion_score = some cs)
    (hrc : d.risk_category = some rc) :
    insert_lead_score d tbl =
      .ok ((tbl.filter (fun r => r.lead_id ≠ d.lead_id)) ++
        [{ lead_id := d.lead_id, age := d.age, location := d.location,
           industry := d.industry, email_opens := d.email_opens,
           website_visits := d.website_visits,
           content_downloads := d.content_downloads,
           days_since_contact := d.days_since_contact,
           lead_source := d.lead_source, conversion_score := cs,
           risk_category := rc, actual_outcome := d.actual_outcome,
           model_version := d.model_version, timestamp := d.timestamp }]) ∧
    lookup_lead d.lead_id
        ((tbl.filter (fun r => r.lead_id ≠ d.lead_id)) ++
          [{ lead_id := d.lead_id, age := d.age, location := d.location,
             industry := d.industry, email_opens := d.email_opens,
             website_visits := d.website_visits,
             content_downloads := d.content_downloads,
             days_since_contact := d.days_since_contact,
             lead_source := d.lead_source, conversion_score := cs,
             risk_category := rc, actual_outcome := d.actual_outcome,
             model_version := d.model_version, timestamp := d.timestamp }]) =
      some { lead_id := d.lead_id, age := d.age, location := d.location,
             industry := d.industry, email_opens := d.email_opens,
             website_visits := d.website_visits,
             content_downloads := d.content_downloads,
             days_since_contact := d.days_since_contact,
             lead_source := d.lead_source, conversion_score := cs,
             risk_category := rc, actual_outcome := d.actual_outcome,
             model_version := d.model_version, timestamp := d.timestamp } := by
  constructor
  · rw [insert_lead_score, hcs, hrc]
  · have hleft : (tbl.filter (fun r => r.lead_id ≠ d.lead_id)).find?
        (fun r => r.lead_id = d.lead_id) = none := by
      rw [List.find?_eq_none]
      intro r hr
      have := List.of_mem_filter hr
      simpa using this
    rw [lookup_lead, List.find?_append, hleft]
    simp

/-- C5 amended witness: the concrete resubmission of `L-1` without an
outcome lands as the stored row with `actual_outcome = none`. -/
theorem upsert_overwrites_all_fields_witness :
    insert_lead_score d5 [leadFb] =
      .ok (([leadFb].filter (fun r => r.lead_id ≠ d5.lead_id)) ++ [row5]) ∧
    lookup_lead d5.lead_id
        (([leadFb].filter (fun r => r.lead_id ≠ d5.lead_id)) ++ [row5]) =
      some row5 :=
  upsert_overwrites_all_fields [leadFb] d5 (mkRat 3 10) "low" rfl rfl

/-! ## Claim C6 -/

/-- Python rounding lands within half a unit of its argument. -/
theorem pyRound_bounds (x : ℚ) :
    x - 1/2 ≤ (pyRound x : ℚ) ∧ (pyRound x : ℚ) ≤ x + 1/2 := by
  have hff : x.floor = ⌊x⌋ := (Rat.floor_def' x).trans Rat.floor_def.symm
  have h12 : (mkRat 1 2 : ℚ) = 1/2 := by
    rw [mkRat_div]
    norm_num
  have hle : (⌊x⌋ : ℚ) ≤ x := Int.floor_le x
  have hlt : x < ⌊x⌋ + 1 := Int.lt_floor_add_one x
  rw [pyRound]
  simp only [hff, ratSub_eq, h12]
  split_ifs with h1 h2 h3 <;> constructor <;> push_cast <;> linarith

/-- The rounded score stays within `[0, 1]` for a probability input. -/
theorem round4_bounds (raw : ℚ) (h0 : 0 ≤ raw) (h1 : raw ≤ 1) :
    0 ≤ round4 raw ∧ round4 raw ≤ 1 := by
  have hb := pyRound_bounds (raw * 10000)
  have hsc : raw * 10000 ≤ 10000 := by nlinarith
  have hsc0 : 0 ≤ raw * 10000 := by nlinarith
  have hizlo : (0 : Int) ≤ pyRound (raw * 10000) := by
    by_contra h
    push_neg at h
    have hm1 : pyRound (raw * 10000) ≤ -1 := by omega
    have : ((pyRound (raw * 10000) : Int) : ℚ) ≤ -1 := by
      exact_mod_cast hm1
    linarith [hb.1]
  have hizhi : pyRound (raw * 10000) ≤ 10000 := by
    by_contra h
    push_neg at h
    have hm1 : (10001 : Int) ≤ pyRound (raw * 10000) := by omega
    have : (10001 : ℚ) ≤ ((pyRound (raw * 10000) : Int) : ℚ) := by
      exact_mod_cast hm1
    linarith [hb.2]
  rw [round4, ratMul_eq, mkRat_div]
  constructor
  · apply div_nonneg
    · exact_mod_cast hizlo
    · norm_num
  · rw [div_le_one (by norm_num)]
    exact_mod_cast hizhi

/-- C6 counterexample: the raw probability 0.69996 is categorized medium
(computed on the raw score in `score_node`), but the score the caller
receives is the rounded 0.7 — at which the claimed boundary mapping says
high.  The full pipeline returns `{score = 0.7, category = medium}`. -/
theorem rounded_score_category_mismatch :
    risk_category (mkRat 69996 100000) = .medium ∧
    round4 (mkRat 69996 100000) = mkRat 7 10 ∧
    risk_category (mkRat 7 10) = .high ∧
    (run_workflow (mkRat 69996 100000) 50
        ⟨init_state req0 "T0" "1.0", sysBoot⟩).2.st.response =
      some { lead_id := "L-1", conversion_score := mkRat 7 10,
             risk_category := .medium, timestamp := "T0",
             model_version := "1.0" } :=
  ⟨by decide, by decide, by decide, by decide⟩

/-- C6, amended: the returned score lies in `[0, 1]`, and the risk
category matches the documented thresholds exactly on the RAW probability
(the one `score_node` categorizes), not on the rounded score the caller
receives; rounding can carry the returned score across a boundary. -/
theorem score_bounds_and_boundaries (raw : ℚ) (h0 : 0 ≤ raw) (h1 : raw ≤ 1) :
    0 ≤ round4 raw ∧ round4 raw ≤ 1 ∧
    (risk_category raw = .high ↔ 7/10 ≤ raw) ∧
    (risk_category raw = .medium ↔ 2/5 ≤ raw ∧ raw < 7/10) ∧
    (risk_category raw = .low ↔ raw < 2/5) := by
  obtain ⟨hb0, hb1⟩ := round4_bounds raw h0 h1
  have h710 : (mkRat 7 10 : ℚ) = 7/10 := by
    rw [mkRat_div]
    norm_num
  have h25 : (mkRat 2 5 : ℚ) = 2/5 := by
    rw [mkRat_div]
    norm_num
  refine ⟨hb0, hb1, ?_, ?_, ?_⟩
  · rw [risk_category, h710, h25]
    split_ifs with ha hb
    · simpa using ha
    · simp [ha]
    · simp [ha]
  · rw [risk_category, h710, h25]
    split_ifs with ha hb
    · simp [show ¬(raw < 7/10) from not_lt.mpr ha]
    · simp [hb, not_le.mp ha]
    · simp [hb]
  · rw [risk_category, h710, h25]
    split_ifs with ha hb
    · simp [show ¬(raw < 2/5) from not_lt.mpr (by linarith)]
    · simp [show ¬(raw < 2/5) from not_lt.mpr hb]
    · simp [not_le.mp hb]

/-- C6 amended witness: at the probability one half the score is in
bounds and the category is medium. -/
theorem score_bounds_and_boundaries_witness :
    risk_category (mkRat 1 2) = .medium ↔
      2/5 ≤ (mkRat 1 2 : ℚ) ∧ (mkRat 1 2 : ℚ) < 7/10 :=
  (score_bounds_and_boundaries (mkRat 1 2) (by decide) (by decide)).2.2.2.1

/-! ## Claim C4 -/

/-- C4 counterexample: on a valid request with no bootstrapped model,
`score_node` records `"No trained model available"`, yet the `store`,
`learn` and `respond` stages still execute (the trace lists all six
stages); `store_node`'s insert then fails on the NOT NULL score column and
OVERWRITES the error, so the error surfaced to the caller is the storage
error, not the first error. -/
theorem workflow_error_masking :
    (run_from (mkRat 1 2) 50 3 entry_point
        ⟨init_state req0 "T0" "1.0", sysEmpty⟩).2.st.error =
      some "No trained model available" ∧
    (run_workflow (mkRat 1 2) 50 ⟨init_state req0 "T0" "1.0", sysEmpty⟩).1 =
      ["validate", "preprocess", "score", "store", "learn", "respond"] ∧
    (run_workflow (mkRat 1 2) 50
        ⟨init_state req0 "T0" "1.0", sysEmpty⟩).2.st.error =
      some "Storage failed: NOT NULL constraint failed" ∧
    some "Storage failed: NOT NULL constraint failed" ≠
      some "No trained model available" ∧
    (run_workflow (mkRat 1 2) 50
        ⟨init_state req0 "T0" "1.0", sysEmpty⟩).2.st.response = none :=
  ⟨by decide, by decide, by decide, by decide, by decide⟩

/-- C4, amended: the compiled graph always executes the six stages in the
fixed order `validate, preprocess, score, store, learn, respond` — but a
stage failure does NOT short-circuit the later stages; only the response
construction is skipped (a response is produced exactly when no error is
recorded), and when scoring fails for lack of a model the error surfaced
is the LAST one recorded (the storage failure), masking the first. -/
theorem workflow_fixed_order_runs_all (predict : ℚ) (thr : Nat) (req : Req)
    (ts cfgVer : String) (sys : Sys) :
    (run_workflow predict thr ⟨init_state req ts cfgVer, sys⟩).1 =
      ["validate", "preprocess", "score", "store", "learn", "respond"] ∧
    ((run_workflow predict thr ⟨init_state req ts cfgVer, sys⟩).2.st.error =
        none ↔
      (run_workflow predict thr ⟨init_state req ts cfgVer, sys⟩).2.st.response ≠
        none) ∧
    ((get_cached_model sys).1 = none →
      (run_workflow predict thr ⟨init_state req ts cfgVer, sys⟩).2.st.error =
        some "Storage failed: NOT NULL constraint failed") := by
  have hrun : run_workflow predict thr ⟨init_state req ts cfgVer, sys⟩ =
      (["validate", "preprocess", "score", "store", "learn", "respond"],
        respond_node (learn_node thr (store_node (score_node predict
          (preprocess_node (validate_node ⟨init_state req ts cfgVer, sys⟩)))))) := rfl
  rw [hrun]
  refine ⟨rfl, ?_, ?_⟩ <;>
  rcases hget : get_cached_model sys with ⟨o, sys'⟩ <;>
  rcases o with _ | ⟨ver, auc⟩ <;>
  rcases houtc : req.actual_outcome with _ | b <;>
    simp [validate_node, preprocess_node, score_node, store_node,
      insert_lead_score, learn_node, respond_node, init_state, hget, houtc,
      riskOfValue_riskValue] <;>
    split_ifs <;>
    simp [respond_node, riskOfValue_riskValue]

/-- C4 amended witness: the concrete no-model run surfaces the storage
error (not the scoring error). -/
theorem workflow_fixed_order_runs_all_witness :
    (run_workflow (mkRat 1 2) 50
        ⟨init_state req0 "T0" "1.0", sysEmpty⟩).2.st.error =
      some "Storage failed: NOT NULL constraint failed" :=
  (workflow_fixed_order_runs_all (mkRat 1 2) 50 req0 "T0" "1.0" sysEmpty).2.2
    (by decide)

/-! ## Claim C8 -/

/-- C8 counterexample, driven through the real store path: scoring `L-1`
with outcome `true` leaves the cached `feedback_count` metric and the live
count both at 1; re-scoring the same lead WITHOUT an outcome overwrites
the row (clearing the outcome) but does not refresh the metric, so
`/info` (`info_feedback_count`, read from `system_metrics`) still reports
`"1"` while the stored records with a non-null outcome number 0.  The
retraining status snapshot, which queries the store, reports 0. -/
theorem info_feedback_count_stale :
    get_feedback_count
        (run_workflow (mkRat 1 2) 50
          ⟨init_state reqFb "T1" "1.0", sysBoot⟩).2.sys.leads = 1 ∧
    info_feedback_count
        (run_workflow (mkRat 1 2) 50
          ⟨init_state reqFb "T1" "1.0", sysBoot⟩).2.sys = "1" ∧
    get_feedback_count
        (run_workflow (mkRat 1 2) 50
          ⟨init_state req0 "T2" "1.0",
            (run_workflow (mkRat 1 2) 50
              ⟨init_state reqFb "T1" "1.0", sysBoot⟩).2.sys⟩).2.sys.leads = 0 ∧
    info_feedback_count
        (run_workflow (mkRat 1 2) 50
          ⟨init_state req0 "T2" "1.0",
            (run_workflow (mkRat 1 2) 50
              ⟨init_state reqFb "T1" "1.0", sysBoot⟩).2.sys⟩).2.sys = "1" ∧
    get_status_feedback_count
        { sys := (run_workflow (mkRat 1 2) 50
            ⟨init_state req0 "T2" "1.0",
              (run_workflow (mkRat 1 2) 50
                ⟨init_state reqFb "T1" "1.0", sysBoot⟩).2.sys⟩).2.sys,
          is_retraining := false, last_check_time := none,
          last_retrain_time := none } = 0 :=
  ⟨by decide, by decide, by decide, by decide, by decide⟩

/-- C8, amended: the retraining status snapshot always reports the live
count of stored records with a non-null outcome, and the `/info` metric is
fresh exactly after a store that carried an outcome — it equals the live
count right after any outcome-bearing submission, but is not refreshed by
submissions without an outcome and can therefore go stale (over-report)
once an outcome-bearing row is overwritten. -/
theorem feedback_count_reporting (rm : RMState) (c : WfCtx) (r : Req)
    (b : Bool) (hreq : c.st.request = some r)
    (hout : r.actual_outcome = some b)
    (hok : (store_node c).st.stored = true) :
    get_status_feedback_count rm = get_feedback_count rm.sys.leads ∧
    info_feedback_count (store_node c).sys =
      natToString (get_feedback_count (store_node c).sys.leads) := by
  refine ⟨rfl, ?_⟩
  rw [store_node, hreq]
  simp only [hout]
  rcases hins : insert_lead_score
      { lead_id := r.lead_id, age := r.age, location := r.location,
        industry := r.industry, email_opens := r.email_opens,
        website_visits := r.website_visits,
        content_downloads := r.content_downloads,
        days_since_contact := r.days_since_contact,
        lead_source := r.lead_source,
        conversion_score := c.st.conversion_score,
        risk_category := c.st.risk_cat,
        actual_outcome := some b,
        model_version := c.st.model_version,
        timestamp := c.st.timestamp } c.sys.leads with e | tbl'
  · exfalso
    rw [store_node, hreq] at hok
    simp only [hout] at hok
    simp [hins] at hok
  · simp only [hins]
    simp [info_feedback_count, get_metric_update]

/-- C8 amended witness: after a concrete outcome-bearing store, the cached
metric equals the live count. -/
theorem feedback_count_reporting_witness :
    get_status_feedback_count rmEmpty =
      get_feedback_count rmEmpty.sys.leads ∧
    info_feedback_count
        (store_node ⟨{ init_state reqFb "T1" "1.0" with
          conversion_score := some (mkRat 1 2), risk_cat := some "medium",
          model_version := "1.0" }, sysBoot⟩).sys =
      natToString (get_feedback_count
        (store_node ⟨{ init_state reqFb "T1" "1.0" with
          conversion_score := some (mkRat 1 2), risk_cat := some "medium",
          model_version := "1.0" }, sysBoot⟩).sys.leads) :=
  feedback_count_reporting rmEmpty
    ⟨{ init_state reqFb "T1" "1.0" with
      conversion_score := some (mkRat 1 2), risk_cat := some "medium",
      model_version := "1.0" }, sysBoot⟩ reqFb true rfl rfl (by decide)

/-! ## Claim C2 -/

/-- A deployment's three registry transactions add a row, so the registry
afterwards differs from the one before. -/
theorem deploy_changes_registry (v : String) (a : ℚ) (reg : Registry) :
    set_active_model v (save_model v a true (deactivate_all_models reg)) ≠ reg := by
  intro h
  have hlen := congrArg List.length h
  rw [length_set_active_model, length_save_model,
    length_deactivate_all_models] at hlen
  omega

/-- C2: `check_and_retrain` mutates the `models` table if and only if the
run reports `success`, which happens only when the freshly trained AUC
exceeds the active model's AUC by at least the configured improvement
threshold; a call with feedback below the retraining threshold reports
`insufficient_feedback` and leaves the whole database untouched, and a
training run whose gain falls short reports `no_improvement` and leaves
the database untouched. -/
theorem registry_write_gated (fbThr : Nat) (impThr : ℚ) (newAuc : ℚ)
    (ts : String) (rm : RMState) (h0 : rm.is_retraining = false) :
    ((check_and_retrain fbThr impThr (.ok newAuc) ts rm).2.sys.registry ≠
        rm.sys.registry ↔
      ∃ oldV newV oldAuc,
        (check_and_retrain fbThr impThr (.ok newAuc) ts rm).1 =
          .ok (.success oldV newV oldAuc newAuc)) ∧
    (∀ oldV newV oldAuc nA,
      (check_and_retrain fbThr impThr (.ok newAuc) ts rm).1 =
        .ok (.success oldV newV oldAuc nA) →
      nA = newAuc ∧ impThr ≤ nA - oldAuc ∧
      ∃ cur, get_active_model rm.sys.registry = some cur ∧
        cur.version = oldV ∧ cur.auc_score = oldAuc) ∧
    (get_feedback_count rm.sys.leads < fbThr →
      (check_and_retrain fbThr impThr (.ok newAuc) ts rm).1 =
        .ok (.insufficient_feedback (get_feedback_count rm.sys.leads) fbThr) ∧
      (check_and_retrain fbThr impThr (.ok newAuc) ts rm).2.sys = rm.sys) ∧
    (∀ cur, get_active_model rm.sys.registry = some cur →
      fbThr ≤ get_feedback_count rm.sys.leads →
      0 < get_feedback_count rm.sys.leads →
      newAuc - cur.auc_score < impThr →
      (check_and_retrain fbThr impThr (.ok newAuc) ts rm).1 =
        .ok .no_improvement ∧
      (check_and_retrain fbThr impThr (.ok newAuc) ts rm).2.sys = rm.sys) ∧
    (∀ cur, get_active_model rm.sys.registry = some cur →
      fbThr ≤ get_feedback_count rm.sys.leads →
      0 < get_feedback_count rm.sys.leads →
      impThr ≤ newAuc - cur.auc_score →
      (check_and_retrain fbThr impThr (.ok newAuc) ts rm).1 =
        .ok (.success cur.version (generate_version cur.version ts)
          cur.auc_score newAuc) ∧
      (check_and_retrain fbThr impThr (.ok newAuc) ts rm).2.sys.registry ≠
        rm.sys.registry) := by
  by_cases hfc : get_feedback_count rm.sys.leads < fbThr
  · have hres : check_and_retrain fbThr impThr (.ok newAuc) ts rm =
        (.ok (.insufficient_feedback (get_feedback_count rm.sys.leads) fbThr),
         { rm with last_check_time := some ts }) := by
      rw [check_and_retrain]
      simp [h0, hfc]
    rw [hres]
    refine ⟨by simp, ?_, fun _ => ⟨rfl, rfl⟩, ?_, ?_⟩
    · intro oldV newV oldAuc nA h
      exact absurd h (by simp)
    · intro cur _ hle _ _
      omega
    · intro cur _ hle _ _
      omega
  · push_neg at hfc
    cases hact : get_active_model rm.sys.registry with
    | none =>
      have hres : check_and_retrain fbThr impThr (.ok newAuc) ts rm =
          (.ok (.error "No current model found"),
           { rm with last_check_time := some ts }) := by
        rw [check_and_retrain]
        simp [h0, Nat.not_lt.mpr hfc, hact]
      rw [hres]
      refine ⟨by simp, ?_, ?_, ?_, ?_⟩
      · intro oldV newV oldAuc nA h
        exact absurd h (by simp)
      · intro h
        omega
      · intro cur hcur
        exact absurd hcur (by simp)
      · intro cur hcur
        exact absurd hcur (by simp)
    | some cur =>
      by_cases hz : (rm.sys.leads.filter
          (fun r => r.actual_outcome ≠ none)).length = 0
      · have hall : ∀ a ∈ rm.sys.leads, a.actual_outcome = none := by
          simpa using hz
        have hres : check_and_retrain fbThr impThr (.ok newAuc) ts rm =
            (.ok (.error "No feedback data available"),
             { rm with
                 is_retraining := false
                 last_check_time := some ts
                 last_retrain_time := some ts }) := by
          rw [check_and_retrain]
          simp [h0, Nat.not_lt.mpr hfc, hact, execute_retraining]
          rw [if_pos hall]
        rw [hres]
        refine ⟨by simp, ?_, ?_, ?_, ?_⟩
        · intro oldV newV oldAuc nA h
          exact absurd h (by simp)
        · intro h
          omega
        · intro cur' hcur hle hpos hlt
          have hzc : get_feedback_count rm.sys.leads = 0 := hz
          omega
        · intro cur' hcur hle hpos hge
          have hzc : get_feedback_count rm.sys.leads = 0 := hz
          omega
      · have hnall : ¬ ∀ a ∈ rm.sys.leads, a.actual_outcome = none := by
          simpa using hz
        by_cases himp : retrain_model_improves newAuc cur.auc_score impThr
        · have hres : check_and_retrain fbThr impThr (.ok newAuc) ts rm =
              (.ok (.success cur.version (generate_version cur.version ts)
                 cur.auc_score newAuc),
               { rm with
                   sys := { leads := rm.sys.leads
                            registry := set_active_model
                              (generate_version cur.version ts)
                              (save_model (generate_version cur.version ts)
                                newAuc true
                                (deactivate_all_models rm.sys.registry))
                            metrics := update_system_metric "model_version"
                              (generate_version cur.version ts)
                              (update_system_metric "last_retraining" ts
                                (update_system_metric "last_training" ts
                                  rm.sys.metrics))
                            cache := none }
                   is_retraining := false
                   last_check_time := some ts
                   last_retrain_time := some ts }) := by
            rw [check_and_retrain]
            simp [h0, Nat.not_lt.mpr hfc, hact, execute_retraining,
              save_to_database, clear_model_cache]
            rw [if_neg hnall, if_neg (by simp [himp])]
          rw [hres]
          refine ⟨?_, ?_, ?_, ?_, ?_⟩
          · constructor
            · intro _
              exact ⟨cur.version, generate_version cur.version ts,
                cur.auc_score, rfl⟩
            · intro _
              exact deploy_changes_registry _ _ _
          · intro oldV newV oldAuc nA h
            simp only [Except.ok.injEq, RetrainResult.success.injEq] at h
            obtain ⟨hv, hnv, hoa, hna⟩ := h
            subst hv
            subst hoa
            subst hna
            rw [retrain_model_improves] at himp
            simp only [decide_eq_true_eq] at himp
            rw [ratSub_eq] at himp
            exact ⟨rfl, by linarith, cur, rfl, rfl, rfl⟩
          · intro h
            omega
          · intro cur' hcur hle hpos hlt
            have hc : cur = cur' := by
              injection hcur
            subst hc
            rw [retrain_model_improves] at himp
            simp only [decide_eq_true_eq] at himp
            rw [ratSub_eq] at himp
            linarith
          · intro cur' hcur hle hpos hge
            have hc : cur = cur' := by
              injection hcur
            subst hc
            exact ⟨rfl, deploy_changes_registry _ _ _⟩
        · have himpf : retrain_model_improves newAuc cur.auc_score impThr =
              false := by
            simpa using himp
          have hres : check_and_retrain fbThr impThr (.ok newAuc) ts rm =
              (.ok .no_improvement,
               { rm with
                   is_retraining := false
                   last_check_time := some ts
                   last_retrain_time := some ts }) := by
            rw [check_and_retrain]
            simp [h0, Nat.not_lt.mpr hfc, hact, execute_retraining]
            rw [if_neg hnall, if_pos himpf]
          rw [hres]
          refine ⟨by simp, ?_, ?_, ?_, ?_⟩
          · intro oldV newV oldAuc nA h
            exact absurd h (by simp)
          · intro h
            omega
          · intro cur' hcur hle hpos hlt
            exact ⟨rfl, rfl⟩
          · intro cur' hcur hle hpos hge
            have hc : cur = cur' := by
              injection hcur
            subst hc
            rw [retrain_model_improves] at himpf
            rw [ratSub_eq] at himpf
            simp only [decide_eq_false_iff_not, not_le] at himpf
            linarith

/-- C2 witness: with no feedback stored, a manual retrain against
threshold 50 reports the shortfall and does not touch the database. -/
theorem registry_write_gated_witness :
    (check_and_retrain 50 (mkRat 1 50) (.ok (mkRat 9 10)) "TS" rmEmpty).1 =
      .ok (.insufficient_feedback (get_feedback_count rmEmpty.sys.leads) 50) ∧
    (check_and_retrain 50 (mkRat 1 50) (.ok (mkRat 9 10)) "TS" rmEmpty).2.sys =
      rmEmpty.sys :=
  (registry_write_gated 50 (mkRat 1 50) (mkRat 9 10) "TS" rmEmpty rfl).2.2.1
    (by decide)

/-! ## Claim C7 -/

/-- Lemma: `_execute_retraining` never reports the already-retraining status. -/
theorem execute_retraining_not_already (impThr : ℚ)
    (train : Except String ℚ) (ts : String) (fc : Nat) (v : String)
    (a : ℚ) (s : Sys) :
    (execute_retraining impThr train ts fc v a s).1 ≠
      .ok .already_retraining := by
  rw [execute_retraining.eq_def]
  split
  · simp
  · split
    · simp
    · split <;> simp

/-- A call entered with the guard flag clear never reports
`already_retraining` (the guarded branch is only reachable with the flag
set). -/
theorem check_result_not_already (fbThr : Nat) (impThr : ℚ)
    (train : Except String ℚ) (ts : String) (rm : RMState)
    (h0 : rm.is_retraining = false) :
    (check_and_retrain fbThr impThr train ts rm).1 ≠
      .ok .already_retraining := by
  rw [check_and_retrain]
  simp only [h0, Bool.false_eq_true, if_false]
  split
  · simp
  · split
    · simp
    · rename_i cur hcur
      split
      · rename_i res sys' hexec
        have hne := execute_retraining_not_already impThr train ts
          (get_feedback_count rm.sys.leads) cur.version cur.auc_score rm.sys
        rw [hexec] at hne
        simp at hne
        simp [hne]
      · simp

/-- Whatever path `check_and_retrain` takes — including a propagated
training exception — it leaves `is_retraining` clear: the reset sits in a
`finally` block and the lock scope always exits. -/
theorem check_releases_guard (fbThr : Nat) (impThr : ℚ)
    (train : Except String ℚ) (ts : String) (rm : RMState)
    (h0 : rm.is_retraining = false) :
    (check_and_retrain fbThr impThr train ts rm).2.is_retraining = false := by
  rw [check_and_retrain]
  simp only [h0, Bool.false_eq_true, if_false]
  split
  · rfl
  · split
    · rfl
    · split <;> rfl

/-- C7: a failure raised during the TRAINING/DEPLOYING phase propagates
out of `check_and_retrain` and is surfaced by the `/retrain` endpoint as
an error result; the guard is released on every exit path, so a
subsequent call gets past the guard into CHECKING (it can never observe
`already_retraining`). -/
theorem retraining_guard_released (fbThr : Nat) (impThr : ℚ) (train : Except String ℚ)
    (e ts : String) (rm : RMState) (h0 : rm.is_retraining = false) :
    (check_and_retrain fbThr impThr train ts rm).2.is_retraining = false ∧
    (train = .error e → fbThr ≤ get_feedback_count rm.sys.leads →
      0 < get_feedback_count rm.sys.leads →
      ∀ cur, get_active_model rm.sys.registry = some cur →
      (check_and_retrain fbThr impThr train ts rm).1 = .error e ∧
      manual_retrain (check_and_retrain fbThr impThr train ts rm).1 =
        .internalError ("Retraining failed: " ++ e)) ∧
    (∀ train2 ts2,
      (check_and_retrain fbThr impThr train2 ts2
          (check_and_retrain fbThr impThr train ts rm).2).1 ≠
        .ok .already_retraining) := by
  refine ⟨check_releases_guard fbThr impThr train ts rm h0, ?_, ?_⟩
  · intro htr hle hpos cur hcur
    subst htr
    have hnall : ¬ ∀ a ∈ rm.sys.leads, a.actual_outcome = none := by
      intro hall
      have hnil : rm.sys.leads.filter (fun r => r.actual_outcome ≠ none) = [] :=
        List.filter_eq_nil_iff.mpr (by intro a ha; simp [hall a ha])
      rw [get_feedback_count, hnil] at hpos
      simp at hpos
    have hres : check_and_retrain fbThr impThr (.error e) ts rm =
        (.error e,
         { rm with
             is_retraining := false
             last_check_time := some ts }) := by
      rw [check_and_retrain]
      simp [h0, Nat.not_lt.mpr hle, hcur, execute_retraining]
      rw [if_neg hnall]
    rw [hres]
    exact ⟨rfl, rfl⟩
  · intro train2 ts2
    exact check_result_not_already fbThr impThr train2 ts2 _
      (check_releases_guard fbThr impThr train ts rm h0)

/-- C7 witness: a concrete training exception on the bootstrapped manager
is surfaced as a 500 error result by the endpoint mapping. -/
theorem retraining_guard_released_witness :
    (check_and_retrain 1 (mkRat 1 50) (.error "boom") "TS" rmBoot).1 =
      .error "boom" ∧
    manual_retrain
        (check_and_retrain 1 (mkRat 1 50) (.error "boom") "TS" rmBoot).1 =
      .internalError ("Retraining failed: " ++ "boom") :=
  (retraining_guard_released 1 (mkRat 1 50) (.error "boom") "boom" "TS"
    rmBoot rfl).2.1 rfl (by decide) (by decide) ⟨"1.0", mkRat 4 5, true⟩
    (by decide)

/-! ## Claim C3 -/

/-- The initial two-caller configuration satisfies the lock discipline. -/
theorem lockInv_init : LockInv initConfig := by
  simp [LockInv, initConfig, inLock]

/-- Every interleaved step preserves the lock discipline. -/
theorem lockInv_step {c c' : Config} (hinv : LockInv c) (hs : Step c c') :
    LockInv c' := by
  obtain ⟨h1, h2, h3, h4, h5⟩ := hinv
  cases hs with
  | acquire i c hpc hlock =>
    cases i <;> simp_all [LockInv, setPc, Config.pc, inLock]
  | readFlagTrue i c hpc hflag =>
    cases i <;> simp_all [LockInv, setPc, setRes, Config.pc, inLock]
  | readFlagFalse i c hpc hflag =>
    cases i <;> simp_all [LockInv, setPc, Config.pc, inLock]
  | earlyReturn i c hpc =>
    cases i <;> simp_all [LockInv, setPc, setRes, Config.pc, inLock]
  | setFlag i c hpc =>
    cases i <;> simp_all [LockInv, setPc, setWw, Config.pc, inLock]
  | resetFlag i c hpc =>
    cases i <;> simp_all [LockInv, setPc, Config.pc, inLock]
  | release i c hpc =>
    cases i <;> simp_all [LockInv, setPc, setRes, Config.pc, inLock]

/-- The lock discipline holds in every reachable configuration. -/
theorem reach_lockInv {c : Config} (h : Reach c) : LockInv c := by
  induction h with
  | init => exact lockInv_init
  | step hr hs ih => exact lockInv_step ih hs

/-- C3: with the whole `check_and_retrain` body inside `retrain_lock`,
(i) NO interleaving of two concurrent calls ever returns the
already-retraining dict — that branch is dead, because the flag is only
observable under the lock and is always false there; (ii) at most one
caller is in TRAINING at a time (they serialize); and (iii) there is a
schedule in which BOTH callers proceed past CHECKING into TRAINING and
complete a full run — the second caller queues on the lock instead of
returning `already_retraining`. -/
theorem retrain_lock_serializes :
    (∀ c, Reach c → c.resA ≠ some true ∧ c.resB ≠ some true) ∧
    (∀ c, Reach c → ¬(c.pcA = PC.working ∧ c.pcB = PC.working)) ∧
    (∃ c, Reach c ∧ c.pcA = PC.done ∧ c.pcB = PC.done ∧
      c.wwA = true ∧ c.wwB = true ∧
      c.resA = some false ∧ c.resB = some false) := by
  refine ⟨?_, ?_, ?_⟩
  · intro c h
    have hinv := reach_lockInv h
    exact ⟨hinv.1, hinv.2.1⟩
  · intro c h hcontra
    obtain ⟨h1, h2, h3, h4, h5⟩ := reach_lockInv h
    have ha := h4 (by simp [inLock, hcontra.1])
    have hb := h5 (by simp [inLock, hcontra.2])
    rw [ha] at hb
    simp at hb
  · have r0 : Reach initConfig := Reach.init
    have r1 := Reach.step r0 (Step.acquire Tid.t0 initConfig rfl rfl)
    have r2 := Reach.step r1 (Step.readFlagFalse Tid.t0 _ rfl rfl)
    have r3 := Reach.step r2 (Step.setFlag Tid.t0 _ rfl)
    have r4 := Reach.step r3 (Step.resetFlag Tid.t0 _ rfl)
    have r5 := Reach.step r4 (Step.release Tid.t0 _ rfl)
    have r6 := Reach.step r5 (Step.acquire Tid.t1 _ rfl rfl)
    have r7 := Reach.step r6 (Step.readFlagFalse Tid.t1 _ rfl rfl)
    have r8 := Reach.step r7 (Step.setFlag Tid.t1 _ rfl)
    have r9 := Reach.step r8 (Step.resetFlag Tid.t1 _ rfl)
    have r10 := Reach.step r9 (Step.release Tid.t1 _ rfl)
    exact ⟨_, r10, rfl, rfl, rfl, rfl, rfl, rfl⟩

/-- C3 witness: the property applied at the initial configuration — no
already-retraining result has been produced. -/
theorem retrain_lock_serializes_witness :
    initConfig.resA ≠ some true ∧ initConfig.resB ≠ some true :=
  retrain_lock_serializes.1 initConfig Reach.init
